import Mathlib

/-!
Shallow embedding of the Mexico-mileage enrichment backend (`src/main.py`).

The program reads a spreadsheet of shipment rows, classifies each row into one
of four routing rules based on the presence of two "Mexico city and state"
fields, builds origin/destination address strings, queries a routing provider
for a driving distance per row (under an `asyncio.Semaphore(20)` bound), and
writes the distances back into a result column indexed by row position.

Modelling conventions:
* Python cell values are modelled by `PyVal`: `None`, a float `NaN`, a string,
  or any other (non-NaN) scalar carried together with its Python `str()`
  rendering.
* Python string truthiness (`if s:`) on an optional string is `truthy`.
* Python `", ".join(parts)` is `str_join ", " parts` (left fold with the
  separator, exactly join's semantics on a non-empty list, `""` on `[]`).
* Python floats used in the meters→miles conversion are modelled as exact
  rationals; Python `round(x, 1)` is round-half-to-even at one decimal
  (`py_round1`).
* The `httpx` call inside `google_route_distance_miles` is modelled by a
  `ProviderOutcome`: either a transport-level exception (`unreachable`, which
  covers connection errors and the 20 s timeout — the code has no
  `try/except`, so this propagates) or an HTTP response with a status code and
  the parsed `routes` list, each route carrying an optional `distanceMeters`.
  Fallible code therefore lives in `Except Unit`.
* The `asyncio.gather` fan-out is modelled by `gatherE` (results in task
  order, or the propagated exception), and the `mexico_miles[idx] = miles`
  reassembly loop by `reassemble`.  The semaphore itself is modelled
  separately as a small transition system (`SemStep`), since "at most 20 in
  flight" is a property of interleavings, not of the final values.
-/

/-- Python `str.strip()` (with the ASCII whitespace characters): drop
whitespace from both ends of the string. -/
def py_strip (s : String) : String :=
  ⟨((s.data.dropWhile Char.isWhitespace).reverse.dropWhile Char.isWhitespace).reverse⟩

/-- Python `s.replace(",", ", ")` — the pattern is the single character `','`,
so this is a per-character substitution. -/
def replace_commas (s : String) : String :=
  ⟨s.data.foldr (fun c acc => if c = ',' then ',' :: ' ' :: acc else c :: acc) []⟩

/-- A Python value as it comes out of a pandas row: `None`, a float `NaN`,
a string, or some other non-NaN scalar (e.g. the float `92101.0`) together
with its Python `str()` rendering. -/
inductive PyVal where
  | vNone : PyVal
  | vNaN : PyVal
  | vStr : String → PyVal
  | vNum : String → PyVal
deriving DecidableEq

/-- `norm` from `src/main.py`: `None` and float `NaN` map to `None`;
every other value maps to `str(v).strip()`. -/
def norm (v : PyVal) : Option String :=
  match v with
  | PyVal.vNone => none
  | PyVal.vNaN => none
  | PyVal.vStr s => some (py_strip s)
  | PyVal.vNum s => some (py_strip s)

/-- Python truthiness of an optional string: `None` and `""` are falsy. -/
def truthy (v : Option String) : Bool :=
  match v with
  | none => false
  | some s => !s.isEmpty

/-- Python `sep.join(parts)`. -/
def str_join (sep : String) (parts : List String) : String :=
  match parts with
  | [] => ""
  | a :: as => as.foldl (fun acc x => acc ++ sep ++ x) a

/-- `build_address` from `src/main.py`: `None` on a falsy city/state token;
otherwise replace `","` by `", "`, optionally append a truthy zip, append the
country token, and comma-join. -/
def build_address (city_state_str : Option String) (zip_code : Option String)
    (country : String) : Option String :=
  match city_state_str with
  | none => none
  | some cs =>
    if cs.isEmpty then none
    else
      let cs' := replace_commas cs
      let parts := [cs']
        ++ (match zip_code with
            | none => []
            | some z => if z.isEmpty then [] else [z])
        ++ [country]
      some (str_join ", " parts)

/-- `build_us_address` from `src/main.py`: requires truthy city and state,
joins their trims, an optional truthy zip, and `"USA"`. -/
def build_us_address (city : Option String) (state : Option String)
    (zip_code : Option String) : Option String :=
  match city, state with
  | some c, some s =>
    if c.isEmpty || s.isEmpty then none
    else
      let parts := [py_strip c, py_strip s]
        ++ (match zip_code with
            | none => []
            | some z => if z.isEmpty then [] else [z])
        ++ ["USA"]
      some (str_join ", " parts)
  | _, _ => none

/-- One input spreadsheet row: the eight columns `calculate_mileage`
validates and `classify_and_build_addresses` reads. -/
structure Row where
  mexico_origin_city_state : PyVal
  mexico_dest_city_state : PyVal
  origin_city : PyVal
  origin_state : PyVal
  origin_zip : PyVal
  dest_city : PyVal
  dest_state : PyVal
  dest_zip : PyVal
deriving DecidableEq

/-- `classify_and_build_addresses` from `src/main.py`: the four routing
rules, returning the (origin, destination) addresses of the Mexico leg, or
`(None, None)` when there is no leg. -/
def classify_and_build_addresses (row : Row) : Option String × Option String :=
  let mx_origin_cs := norm row.mexico_origin_city_state
  let mx_dest_cs := norm row.mexico_dest_city_state
  let orig_city := norm row.origin_city
  let orig_state := norm row.origin_state
  let orig_zip := norm row.origin_zip
  let dest_city := norm row.dest_city
  let dest_state := norm row.dest_state
  let dest_zip := norm row.dest_zip
  if truthy mx_origin_cs && !truthy mx_dest_cs then
    let mx_origin_addr := build_address mx_origin_cs none "Mexico"
    let border_addr := build_us_address dest_city dest_state dest_zip
    if !truthy border_addr then (none, none)
    else (mx_origin_addr, border_addr)
  else if !truthy mx_origin_cs && truthy mx_dest_cs then
    let border_addr := build_us_address orig_city orig_state orig_zip
    let mx_dest_addr := build_address mx_dest_cs none "Mexico"
    if !truthy border_addr || !truthy mx_dest_addr then (none, none)
    else (border_addr, mx_dest_addr)
  else if truthy mx_origin_cs && truthy mx_dest_cs then
    (build_address mx_origin_cs none "Mexico",
     build_address mx_dest_cs none "Mexico")
  else (none, none)

/-- The observable outcome of the single `httpx` POST inside
`google_route_distance_miles`: either a transport-level exception
(connection error or timeout — the code does not catch these), or an HTTP
response with a status code and the parsed `routes` list, each element
carrying its optional integral `distanceMeters` field. -/
inductive ProviderOutcome where
  | unreachable : ProviderOutcome
  | response : Nat → List (Option Int) → ProviderOutcome
deriving DecidableEq

/-- Round-half-to-even to an integer, Python's `round` on an exact value. -/
def round_half_even (q : ℚ) : ℤ :=
  if q - (⌊q⌋ : ℚ) < 1 / 2 then ⌊q⌋
  else if (1 : ℚ) / 2 < q - (⌊q⌋ : ℚ) then ⌊q⌋ + 1
  else if ⌊q⌋ % 2 = 0 then ⌊q⌋ else ⌊q⌋ + 1

/-- Python `round(x, 1)` on an exact rational. -/
def py_round1 (q : ℚ) : ℚ :=
  (round_half_even (q * 10) : ℚ) / 10

/-- The meters→miles factor `0.000621371` of `src/main.py`, as an exact
rational. -/
def MILES_PER_METER : ℚ := 0.000621371

/-- `google_route_distance_miles` from `src/main.py`, as a function of the
configured API key and of the outcome of its one network call.  Missing or
empty key: `None` before any call.  Transport exception: propagates
(`Except.error`).  Non-200 status, empty `routes`, or missing
`distanceMeters` on the first route: `None`.  Otherwise
`round(meters * 0.000621371, 1)`. -/
def google_route_distance_miles (apiKey : Option String)
    (outcome : ProviderOutcome) : Except Unit (Option ℚ) :=
  if !truthy apiKey then Except.ok none
  else
    match outcome with
    | ProviderOutcome.unreachable => Except.error ()
    | ProviderOutcome.response status routes =>
      if status ≠ 200 then Except.ok none
      else
        match routes with
        | [] => Except.ok none
        | r :: _ =>
          match r with
          | none => Except.ok none
          | some meters =>
            Except.ok (some (py_round1 ((meters : ℚ) * MILES_PER_METER)))

/-- `process_one` from `calculate_mileage` in `src/main.py`: classify the
row; if either address is falsy return `(idx, None)` without a lookup;
otherwise perform the lookup (an uncaught exception propagates) and tag the
result with the row index.  The provider's deterministic behaviour is the
function `provider` from the two addresses to the call outcome. -/
def process_one (apiKey : Option String)
    (provider : String → String → ProviderOutcome) (idx : Nat) (row : Row) :
    Except Unit (Nat × Option ℚ) :=
  let pair := classify_and_build_addresses row
  if !truthy pair.1 || !truthy pair.2 then Except.ok (idx, none)
  else
    match pair.1, pair.2 with
    | some o, some d =>
      match google_route_distance_miles apiKey (provider o d) with
      | Except.ok miles => Except.ok (idx, miles)
      | Except.error e => Except.error e
    | _, _ => Except.ok (idx, none)

/-- `asyncio.gather(*tasks)` without `return_exceptions`: all task results in
task order, or a propagated exception if any task raised. -/
def gatherE {α : Type} (tasks : List (Except Unit α)) : Except Unit (List α) :=
  match tasks with
  | [] => Except.ok []
  | t :: ts =>
    match t with
    | Except.error e => Except.error e
    | Except.ok v =>
      match gatherE ts with
      | Except.error e => Except.error e
      | Except.ok vs => Except.ok (v :: vs)

/-- The `mexico_miles = [None] * len(df); for idx, miles in results:
mexico_miles[idx] = miles` loop of `calculate_mileage`. -/
def reassemble (n : Nat) (results : List (Nat × Option ℚ)) : List (Option ℚ) :=
  results.foldl (fun acc p => acc.set p.1 p.2) (List.replicate n (none : Option ℚ))

/-- The `tasks = [process_one(idx, row) for idx, row in df.iterrows()];
results = await asyncio.gather(*tasks)` stage of `calculate_mileage`. -/
def tagged_results (apiKey : Option String)
    (provider : String → String → ProviderOutcome) (rows : List Row) :
    Except Unit (List (Nat × Option ℚ)) :=
  gatherE (rows.enum.map (fun p => process_one apiKey provider p.1 p.2))

/-- The enrichment core of `calculate_mileage` from `src/main.py`: run
`process_one` over all indexed rows, gather, and reassemble the miles column
by index.  Spreadsheet I/O and column validation are outside this core. -/
def calculate_mileage (apiKey : Option String)
    (provider : String → String → ProviderOutcome) (rows : List Row) :
    Except Unit (List (Option ℚ)) :=
  match tagged_results apiKey provider rows with
  | Except.error e => Except.error e
  | Except.ok results => Except.ok (reassemble rows.length results)

/-! ### Helper lemmas about the string operations -/

theorem str_join_pair (a b : String) : str_join ", " [a, b] = a ++ ", " ++ b := rfl

theorem str_join_triple (a b c : String) :
    str_join ", " [a, b, c] = a ++ ", " ++ b ++ ", " ++ c := rfl

theorem length_le_foldl_append (l : List String) (acc : String) :
    acc.length ≤ (l.foldl (fun x y => x ++ ", " ++ y) acc).length := by
  induction l generalizing acc with
  | nil => exact Nat.le_refl _
  | cons h t ih =>
    refine Nat.le_trans ?_ (ih (acc ++ ", " ++ h))
    simp only [String.length_append]
    omega

theorem str_join_two_isEmpty (a b : String) (rest : List String) :
    (str_join ", " (a :: b :: rest)).isEmpty = false := by
  have h0 : str_join ", " (a :: b :: rest)
      = rest.foldl (fun x y => x ++ ", " ++ y) (a ++ ", " ++ b) := rfl
  have h1 := length_le_foldl_append rest (a ++ ", " ++ b)
  have hsep : (", " : String).length = 2 := rfl
  rw [h0]
  cases hE : (rest.foldl (fun x y => x ++ ", " ++ y) (a ++ ", " ++ b)).isEmpty with
  | false => rfl
  | true =>
    exfalso
    have hx := (String.isEmpty_iff _).mp hE
    rw [hx] at h1
    have hz : ("" : String).length = 0 := rfl
    simp only [String.length_append, hsep, hz] at h1
    omega

/-- A built Mexico address is always a present, non-empty string whenever the
incoming city/state token is a present, non-empty string. -/
theorem build_address_of_truthy (cs : String) (hcs : cs.isEmpty = false)
    (z : Option String) (country : String) :
    ∃ a, build_address (some cs) z country = some a ∧ a.isEmpty = false := by
  cases z with
  | none =>
    refine ⟨_, ?_, str_join_two_isEmpty (replace_commas cs) country []⟩
    simp [build_address, hcs]
  | some zc =>
    by_cases hz : zc.isEmpty
    · refine ⟨_, ?_, str_join_two_isEmpty (replace_commas cs) country []⟩
      simp [build_address, hcs, hz]
    · refine ⟨_, ?_, str_join_two_isEmpty (replace_commas cs) zc [country]⟩
      simp [build_address, hcs, hz]

/-- Truthiness of a built U.S. address coincides with its presence: when
`build_us_address` returns a string at all, that string is non-empty. -/
theorem truthy_build_us_address (c s z : Option String) :
    truthy (build_us_address c s z) = (build_us_address c s z).isSome := by
  unfold build_us_address
  cases c with
  | none => rfl
  | some cc =>
    cases s with
    | none => rfl
    | some ss =>
      by_cases hce : cc.isEmpty || ss.isEmpty
      · simp [hce, truthy]
      · simp only [hce]
        cases z with
        | none => simp [truthy, str_join_two_isEmpty]
        | some zc =>
          by_cases hz : zc.isEmpty
          · simp [hz, truthy, str_join_two_isEmpty]
          · simp [hz, truthy, str_join_two_isEmpty]

/-- Truthiness of a built Mexico address coincides with its presence. -/
theorem truthy_build_address (cso z : Option String) (country : String) :
    truthy (build_address cso z country) = (build_address cso z country).isSome := by
  cases cso with
  | none => rfl
  | some cs =>
    by_cases hcs : cs.isEmpty
    · simp [build_address, hcs, truthy]
    · obtain ⟨a, ha, hae⟩ := build_address_of_truthy cs (Bool.eq_false_iff.mpr hcs) z country
      rw [ha]
      simp [truthy, hae]

/-! ### Claim theorems: address building and normalization -/

/-- C5: Mexico address building.  For every field value whose normalization is
a non-empty token, `build_address` inserts a space after the comma, optionally
appends the postal code, and always ends with the literal token `"Mexico"`
(in particular `"JUAREZ,NL"` maps to `"JUAREZ, NL, Mexico"` without zip and to
`"JUAREZ, NL, 32000, Mexico"` with zip `"32000"`); for a value that is
null/NaN or empty after trimming, the result is absent. -/
theorem c5_build_mexico_address (v : PyVal) (z : String) :
    (∀ cs, norm v = some cs → cs.isEmpty = false →
      build_address (norm v) none "Mexico"
          = some (replace_commas cs ++ ", " ++ "Mexico")
      ∧ (z.isEmpty = false →
          build_address (norm v) (some z) "Mexico"
            = some (replace_commas cs ++ ", " ++ z ++ ", " ++ "Mexico")))
    ∧ ((norm v = none ∨ norm v = some "") →
        ∀ zc : Option String, build_address (norm v) zc "Mexico" = none)
    ∧ build_address (some "JUAREZ,NL") none "Mexico" = some "JUAREZ, NL, Mexico"
    ∧ build_address (some "JUAREZ,NL") (some "32000") "Mexico"
        = some "JUAREZ, NL, 32000, Mexico" := by
  refine ⟨?_, ?_, by decide, by decide⟩
  · intro cs hcs hne
    rw [hcs]
    constructor
    · simp [build_address, hne, str_join_pair]
    · intro hz
      simp [build_address, hne, hz, str_join_triple]
  · intro h zc
    rcases h with h | h
    · rw [h]; rfl
    · rw [h]; rfl

/-- C5 witness: the generic part of `c5_build_mexico_address` evaluated on the
spec's own example token. -/
theorem c5_build_mexico_address_witness :
    build_address (norm (PyVal.vStr "JUAREZ,NL")) none "Mexico"
        = some (replace_commas "JUAREZ,NL" ++ ", " ++ "Mexico")
    ∧ build_address (norm PyVal.vNone) none "Mexico" = none := by
  refine ⟨((c5_build_mexico_address (PyVal.vStr "JUAREZ,NL") "32000").1
      "JUAREZ,NL" (by decide) (by decide)).1, ?_⟩
  exact (c5_build_mexico_address PyVal.vNone "32000").2.1 (Or.inl rfl) none

/-- C10: field normalization maps `None` and float `NaN` to absent and every
other value to the trimmed string rendering of that value; consequently a
non-string scalar such as the float `92101.0` in the zip column flows into the
built U.S. address as the text `"92101.0"` rather than being rejected. -/
theorem c10_norm_string_rendering :
    norm PyVal.vNone = none
    ∧ norm PyVal.vNaN = none
    ∧ (∀ s, norm (PyVal.vStr s) = some (py_strip s))
    ∧ (∀ s, norm (PyVal.vNum s) = some (py_strip s))
    ∧ classify_and_build_addresses
        { mexico_origin_city_state := PyVal.vNone
          mexico_dest_city_state := PyVal.vStr "JUAREZ,NL"
          origin_city := PyVal.vStr "San Diego"
          origin_state := PyVal.vStr "CA"
          origin_zip := PyVal.vNum "92101.0"
          dest_city := PyVal.vNone
          dest_state := PyVal.vNone
          dest_zip := PyVal.vNone }
        = (some "San Diego, CA, 92101.0, USA", some "JUAREZ, NL, Mexico") :=
  ⟨rfl, rfl, fun _ => rfl, fun _ => rfl, by decide⟩

/-- C6: a successful provider response (status 200, a first route carrying
`m` meters) yields exactly `round(m * 0.000621371, 1)` miles; in particular
160934 meters yield 100.0 miles. -/
theorem c6_meters_to_miles (key : String) (hkey : key.isEmpty = false)
    (m : Int) (rest : List (Option Int)) :
    google_route_distance_miles (some key)
        (ProviderOutcome.response 200 (some m :: rest))
      = Except.ok (some (py_round1 ((m : ℚ) * MILES_PER_METER)))
    ∧ py_round1 ((160934 : ℚ) * MILES_PER_METER) = 100 := by
  constructor
  · simp [google_route_distance_miles, truthy, hkey]
  · have hq : (160934 : ℚ) * MILES_PER_METER * 10 = 999997205140 / 1000000000 := by
      norm_num [MILES_PER_METER]
    have hf : ⌊(999997205140 / 1000000000 : ℚ)⌋ = 999 := by
      rw [Int.floor_eq_iff]
      norm_num
    unfold py_round1 round_half_even
    rw [hq, hf]
    norm_num

/-- C6 witness: `c6_meters_to_miles` at a concrete key and the spec's
`160934` meters. -/
theorem c6_meters_to_miles_witness :
    google_route_distance_miles (some "k")
        (ProviderOutcome.response 200 [some 160934])
      = Except.ok (some (py_round1 ((160934 : ℚ) * MILES_PER_METER)))
    ∧ py_round1 ((160934 : ℚ) * MILES_PER_METER) = 100 :=
  c6_meters_to_miles "k" (by decide) 160934 []

/-! ### Helper lemmas about truthiness and the classifier -/

theorem truthy_none : truthy (none : Option String) = false := rfl

theorem truthy_some (o : Option String) (h : truthy o = true) :
    ∃ s, o = some s ∧ s.isEmpty = false := by
  cases o with
  | none => simp [truthy] at h
  | some s =>
    refine ⟨s, rfl, ?_⟩
    simpa [truthy] using h

theorem build_address_truthy_of_truthy (o : Option String) (h : truthy o = true)
    (z : Option String) (country : String) :
    ∃ a, build_address o z country = some a ∧ a.isEmpty = false := by
  obtain ⟨s, rfl, hs⟩ := truthy_some o h
  exact build_address_of_truthy s hs z country

theorem build_us_address_eq_none (c s z : Option String)
    (h : truthy c = false ∨ truthy s = false) :
    build_us_address c s z = none := by
  cases c with
  | none => rfl
  | some cc =>
    cases s with
    | none => rfl
    | some ss =>
      simp only [truthy, Bool.not_eq_false'] at h
      have : cc.isEmpty || ss.isEmpty := by
        rcases h with h | h <;> simp [h]
      simp [build_us_address, this]

/-! ### Claim theorems: the four routing rules -/

/-- C3: exactly one of the four classifier rules applies, decided by the
normalized presence of the two Mexico city/state fields.  Mexico-origin-only
(rule 1) yields the Mexico origin address and the U.S. destination address;
Mexico-dest-only (rule 2) yields the U.S. origin address and the Mexico
destination address; both present (rule 3) always yields the two Mexico
addresses; neither present (rule 4) yields no address pair.  (The four
presence combinations are exhaustive and mutually exclusive; for rules 1 and
2 the stated pair is produced whenever the required U.S. side builds.) -/
theorem c3_classifier_rules (row : Row) :
    (truthy (norm row.mexico_origin_city_state) = true →
     truthy (norm row.mexico_dest_city_state) = false →
     build_us_address (norm row.dest_city) (norm row.dest_state)
         (norm row.dest_zip) ≠ none →
     classify_and_build_addresses row
       = (build_address (norm row.mexico_origin_city_state) none "Mexico",
          build_us_address (norm row.dest_city) (norm row.dest_state)
            (norm row.dest_zip)))
    ∧
    (truthy (norm row.mexico_origin_city_state) = false →
     truthy (norm row.mexico_dest_city_state) = true →
     build_us_address (norm row.origin_city) (norm row.origin_state)
         (norm row.origin_zip) ≠ none →
     classify_and_build_addresses row
       = (build_us_address (norm row.origin_city) (norm row.origin_state)
            (norm row.origin_zip),
          build_address (norm row.mexico_dest_city_state) none "Mexico"))
    ∧
    (truthy (norm row.mexico_origin_city_state) = true →
     truthy (norm row.mexico_dest_city_state) = true →
     ∃ a b, classify_and_build_addresses row = (some a, some b)
       ∧ some a = build_address (norm row.mexico_origin_city_state) none "Mexico"
       ∧ some b = build_address (norm row.mexico_dest_city_state) none "Mexico")
    ∧
    (truthy (norm row.mexico_origin_city_state) = false →
     truthy (norm row.mexico_dest_city_state) = false →
     classify_and_build_addresses row = (none, none)) := by
  refine ⟨?_, ?_, ?_, ?_⟩
  · intro hmo hmd hb
    have hbt : truthy (build_us_address (norm row.dest_city)
        (norm row.dest_state) (norm row.dest_zip)) = true := by
      rw [truthy_build_us_address]
      exact Option.ne_none_iff_isSome.mp hb
    simp [classify_and_build_addresses, hmo, hmd, hbt]
  · intro hmo hmd hb
    have hbt : truthy (build_us_address (norm row.origin_city)
        (norm row.origin_state) (norm row.origin_zip)) = true := by
      rw [truthy_build_us_address]
      exact Option.ne_none_iff_isSome.mp hb
    have hmt : truthy (build_address (norm row.mexico_dest_city_state)
        none "Mexico") = true := by
      obtain ⟨a, ha, hae⟩ :=
        build_address_truthy_of_truthy _ hmd none "Mexico"
      rw [ha]
      simp [truthy, hae]
    simp [classify_and_build_addresses, hmo, hmd, hbt, hmt]
  · intro hmo hmd
    obtain ⟨a, ha, hae⟩ := build_address_truthy_of_truthy _ hmo none "Mexico"
    obtain ⟨b, hb, hbe⟩ := build_address_truthy_of_truthy _ hmd none "Mexico"
    refine ⟨a, b, ?_, ha.symm, hb.symm⟩
    simp [classify_and_build_addresses, hmo, hmd, ha, hb]
  · intro hmo hmd
    simp [classify_and_build_addresses, hmo, hmd]

/-- C3 witness: rule 1 on the spec's end-to-end example row and rule 4 on an
all-empty row. -/
theorem c3_classifier_rules_witness :
    classify_and_build_addresses
      { mexico_origin_city_state := PyVal.vStr "TIJUANA,BC"
        mexico_dest_city_state := PyVal.vNone
        origin_city := PyVal.vNone
        origin_state := PyVal.vNone
        origin_zip := PyVal.vNone
        dest_city := PyVal.vStr "San Diego"
        dest_state := PyVal.vStr "CA"
        dest_zip := PyVal.vStr "92101" }
      = (build_address (some "TIJUANA,BC") none "Mexico",
         build_us_address (some "San Diego") (some "CA") (some "92101")) :=
  (c3_classifier_rules _).1 (by decide) (by decide) (by decide)

/-- C4: for a rule-1 or rule-2 record whose required U.S. address cannot be
built (city or state missing after trimming), the classifier returns the same
result as rule 4 — no address pair — and consequently `process_one` records
`None` without attempting any lookup (the outcome is the same for every
provider). -/
theorem c4_us_fallback_is_rule4 (row : Row) :
    (truthy (norm row.mexico_origin_city_state) = true →
     truthy (norm row.mexico_dest_city_state) = false →
     (truthy (norm row.dest_city) = false ∨
      truthy (norm row.dest_state) = false) →
     classify_and_build_addresses row = (none, none)
     ∧ ∀ apiKey provider idx,
         process_one apiKey provider idx row = Except.ok (idx, none))
    ∧
    (truthy (norm row.mexico_origin_city_state) = false →
     truthy (norm row.mexico_dest_city_state) = true →
     (truthy (norm row.origin_city) = false ∨
      truthy (norm row.origin_state) = false) →
     classify_and_build_addresses row = (none, none)
     ∧ ∀ apiKey provider idx,
         process_one apiKey provider idx row = Except.ok (idx, none)) := by
  constructor
  · intro hmo hmd hus
    have hbn : build_us_address (norm row.dest_city) (norm row.dest_state)
        (norm row.dest_zip) = none := build_us_address_eq_none _ _ _ hus
    have hclass : classify_and_build_addresses row = (none, none) := by
      simp [classify_and_build_addresses, hmo, hmd, hbn, truthy_none]
    refine ⟨hclass, ?_⟩
    intro apiKey provider idx
    simp [process_one, hclass, truthy_none]
  · intro hmo hmd hus
    have hbn : build_us_address (norm row.origin_city) (norm row.origin_state)
        (norm row.origin_zip) = none := build_us_address_eq_none _ _ _ hus
    have hclass : classify_and_build_addresses row = (none, none) := by
      simp [classify_and_build_addresses, hmo, hmd, hbn, truthy_none]
    refine ⟨hclass, ?_⟩
    intro apiKey provider idx
    simp [process_one, hclass, truthy_none]

/-- C4 witness: a rule-1 row with a Mexico origin but no U.S. destination
city resolves to no pair and a `None` mile value, for a concrete provider. -/
theorem c4_us_fallback_is_rule4_witness :
    classify_and_build_addresses
      { mexico_origin_city_state := PyVal.vStr "TIJUANA,BC"
        mexico_dest_city_state := PyVal.vNone
        origin_city := PyVal.vNone
        origin_state := PyVal.vNone
        origin_zip := PyVal.vNone
        dest_city := PyVal.vNone
        dest_state := PyVal.vStr "CA"
        dest_zip := PyVal.vStr "92101" }
      = (none, none)
    ∧ process_one (some "k") (fun _ _ => ProviderOutcome.unreachable) 0
        { mexico_origin_city_state := PyVal.vStr "TIJUANA,BC"
          mexico_dest_city_state := PyVal.vNone
          origin_city := PyVal.vNone
          origin_state := PyVal.vNone
          origin_zip := PyVal.vNone
          dest_city := PyVal.vNone
          dest_state := PyVal.vStr "CA"
          dest_zip := PyVal.vStr "92101" }
      = Except.ok (0, none) := by
  have h := (c4_us_fallback_is_rule4
    { mexico_origin_city_state := PyVal.vStr "TIJUANA,BC"
      mexico_dest_city_state := PyVal.vNone
      origin_city := PyVal.vNone
      origin_state := PyVal.vNone
      origin_zip := PyVal.vNone
      dest_city := PyVal.vNone
      dest_state := PyVal.vStr "CA"
      dest_zip := PyVal.vStr "92101" }).1
    (by decide) (by decide) (Or.inl (by decide))
  exact ⟨h.1, h.2 (some "k") (fun _ _ => ProviderOutcome.unreachable) 0⟩

/-- C9 (implicit): the classifier always builds the Mexico-side address with
the zip argument absent, so every Mexico address it can produce is exactly
`replace_commas(token) ++ ", Mexico"` — no postal code ever appears on the
Mexico side, even though `build_address` supports one. -/
theorem c9_mexico_addresses_zip_free (row : Row) :
    (truthy (norm row.mexico_origin_city_state) = true →
     truthy (norm row.mexico_dest_city_state) = false →
     (classify_and_build_addresses row).1 = none ∨
     (classify_and_build_addresses row).1
        = build_address (norm row.mexico_origin_city_state) none "Mexico")
    ∧
    (truthy (norm row.mexico_origin_city_state) = false →
     truthy (norm row.mexico_dest_city_state) = true →
     (classify_and_build_addresses row).2 = none ∨
     (classify_and_build_addresses row).2
        = build_address (norm row.mexico_dest_city_state) none "Mexico")
    ∧
    (truthy (norm row.mexico_origin_city_state) = true →
     truthy (norm row.mexico_dest_city_state) = true →
     classify_and_build_addresses row
       = (build_address (norm row.mexico_origin_city_state) none "Mexico",
          build_address (norm row.mexico_dest_city_state) none "Mexico"))
    ∧
    (∀ cs, cs.isEmpty = false →
      build_address (some cs) none "Mexico"
        = some (replace_commas cs ++ ", " ++ "Mexico")) := by
  refine ⟨?_, ?_, ?_, ?_⟩
  · intro hmo hmd
    by_cases hbt : truthy (build_us_address (norm row.dest_city)
        (norm row.dest_state) (norm row.dest_zip)) = true
    · right
      simp [classify_and_build_addresses, hmo, hmd, hbt]
    · left
      have hbf : truthy (build_us_address (norm row.dest_city)
          (norm row.dest_state) (norm row.dest_zip)) = false :=
        Bool.eq_false_iff.mpr hbt
      simp [classify_and_build_addresses, hmo, hmd, hbf]
  · intro hmo hmd
    have hmt : truthy (build_address (norm row.mexico_dest_city_state)
        none "Mexico") = true := by
      obtain ⟨a, ha, hae⟩ := build_address_truthy_of_truthy _ hmd none "Mexico"
      rw [ha]
      simp [truthy, hae]
    by_cases hbt : truthy (build_us_address (norm row.origin_city)
        (norm row.origin_state) (norm row.origin_zip)) = true
    · right
      simp [classify_and_build_addresses, hmo, hmd, hbt, hmt]
    · left
      have hbf : truthy (build_us_address (norm row.origin_city)
          (norm row.origin_state) (norm row.origin_zip)) = false :=
        Bool.eq_false_iff.mpr hbt
      simp [classify_and_build_addresses, hmo, hmd, hbf]
  · intro hmo hmd
    simp [classify_and_build_addresses, hmo, hmd]
  · intro cs hcs
    simp [build_address, hcs, str_join_pair]

/-- C9 witness: a rule-3 row produces the two zip-free Mexico addresses. -/
theorem c9_mexico_addresses_zip_free_witness :
    classify_and_build_addresses
      { mexico_origin_city_state := PyVal.vStr "JUAREZ,NL"
        mexico_dest_city_state := PyVal.vStr "CHIHUAHUA,CH"
        origin_city := PyVal.vNone
        origin_state := PyVal.vNone
        origin_zip := PyVal.vNone
        dest_city := PyVal.vNone
        dest_state := PyVal.vNone
        dest_zip := PyVal.vNone }
      = (build_address (some "JUAREZ,NL") none "Mexico",
         build_address (some "CHIHUAHUA,CH") none "Mexico") :=
  (c9_mexico_addresses_zip_free _).2.2.1 (by decide) (by decide)

/-! ### Claim theorems: distance-client error handling -/

/-- C2 counterexample: with credentials configured and the provider
unreachable (a transport-level exception from the HTTP client), the lookup
does NOT return absent — the exception propagates, and a batch containing a
single Mexico-leg row aborts as a whole instead of degrading that row to
absent. -/
theorem c2_lookup_failure_counterexample :
    google_route_distance_miles (some "key") ProviderOutcome.unreachable
      = Except.error ()
    ∧ calculate_mileage (some "key") (fun _ _ => ProviderOutcome.unreachable)
        [{ mexico_origin_city_state := PyVal.vStr "JUAREZ,NL"
           mexico_dest_city_state := PyVal.vStr "CHIHUAHUA,CH"
           origin_city := PyVal.vNone
           origin_state := PyVal.vNone
           origin_zip := PyVal.vNone
           dest_city := PyVal.vNone
           dest_state := PyVal.vNone
           dest_zip := PyVal.vNone }]
      = Except.error () :=
  ⟨rfl, rfl⟩

/-- C2 (amended): the distance lookup returns absent (not an error) when
credentials are not configured, when the HTTP response is not successful,
when the response contains no route, and when the first route has no
distance field; but when the provider is unreachable (transport exception or
timeout) the exception propagates — that failure case, and only that one,
can abort the batch. -/
theorem c2_lookup_failures_absent (apiKey : Option String) (st : Nat)
    (routes : List (Option Int)) (rest : List (Option Int)) :
    (truthy apiKey = false →
      ∀ outcome, google_route_distance_miles apiKey outcome = Except.ok none)
    ∧ (st ≠ 200 →
        google_route_distance_miles apiKey (ProviderOutcome.response st routes)
          = Except.ok none)
    ∧ google_route_distance_miles apiKey (ProviderOutcome.response 200 [])
        = Except.ok none
    ∧ google_route_distance_miles apiKey
        (ProviderOutcome.response 200 (none :: rest)) = Except.ok none
    ∧ (truthy apiKey = true →
        google_route_distance_miles apiKey ProviderOutcome.unreachable
          = Except.error ()) := by
  refine ⟨?_, ?_, ?_, ?_, ?_⟩
  · intro h outcome
    simp [google_route_distance_miles, h]
  · intro hst
    by_cases h : truthy apiKey
    · simp [google_route_distance_miles, h, hst]
    · simp [google_route_distance_miles, Bool.eq_false_iff.mpr h]
  · by_cases h : truthy apiKey
    · simp [google_route_distance_miles, h]
    · simp [google_route_distance_miles, Bool.eq_false_iff.mpr h]
  · by_cases h : truthy apiKey
    · simp [google_route_distance_miles, h]
    · simp [google_route_distance_miles, Bool.eq_false_iff.mpr h]
  · intro h
    simp [google_route_distance_miles, h]

/-- C2 witness: each absent-returning failure case of
`c2_lookup_failures_absent` evaluated at concrete inputs, plus the
propagating unreachable case. -/
theorem c2_lookup_failures_absent_witness :
    google_route_distance_miles none ProviderOutcome.unreachable = Except.ok none
    ∧ google_route_distance_miles (some "k") (ProviderOutcome.response 403 [some 5])
        = Except.ok none
    ∧ google_route_distance_miles (some "k") (ProviderOutcome.response 200 [])
        = Except.ok none
    ∧ google_route_distance_miles (some "k") (ProviderOutcome.response 200 [none])
        = Except.ok none
    ∧ google_route_distance_miles (some "k") ProviderOutcome.unreachable
        = Except.error () :=
  ⟨(c2_lookup_failures_absent none 403 [some 5] []).1 rfl ProviderOutcome.unreachable,
   (c2_lookup_failures_absent (some "k") 403 [some 5] []).2.1 (by decide),
   (c2_lookup_failures_absent (some "k") 403 [some 5] []).2.2.1,
   (c2_lookup_failures_absent (some "k") 403 [some 5] []).2.2.2.1,
   (c2_lookup_failures_absent (some "k") 403 [some 5] []).2.2.2.2 rfl⟩

/-! ### The semaphore model

`calculate_mileage` wraps the whole body of every `process_one` task in
`async with sem` where `sem = asyncio.Semaphore(20)`.  We model the phases a
task goes through with respect to the semaphore: `task_pending` (created, not
yet holding a slot), `task_running` (inside the `async with`, where the
lookup's network call happens), `task_done` (the block exited — normally or
by exception — and the slot was released).  A scheduler step either lets a
pending task acquire a slot, guarded by the slot count, or lets a running
task finish.  This is the standard interleaving semantics of a counting
semaphore: any real execution of the `asyncio` program maps to a trace of
this relation. -/

inductive TaskPhase where
  | task_pending : TaskPhase
  | task_running : TaskPhase
  | task_done : TaskPhase
deriving DecidableEq

/-- Is this task holding a semaphore slot (lookup in flight)? -/
def is_running (p : TaskPhase) : Bool :=
  match p with
  | TaskPhase.task_running => true
  | _ => false

/-- Number of lookups simultaneously in flight. -/
def in_flight (s : List TaskPhase) : Nat := s.countP is_running

/-- One scheduler step under `asyncio.Semaphore(cap)`: a pending task may
enter `async with sem` only when fewer than `cap` slots are held; a running
task may exit (on any path), releasing its slot. -/
inductive SemStep (cap : Nat) : List TaskPhase → List TaskPhase → Prop where
  | acquire (s : List TaskPhase) (i : Nat)
      (h : s.get? i = some TaskPhase.task_pending) (hc : in_flight s < cap) :
      SemStep cap s (s.set i TaskPhase.task_running)
  | release (s : List TaskPhase) (i : Nat)
      (h : s.get? i = some TaskPhase.task_running) :
      SemStep cap s (s.set i TaskPhase.task_done)

/-- Reachability under the scheduler. -/
inductive SemReach (cap : Nat) : List TaskPhase → List TaskPhase → Prop where
  | refl (s : List TaskPhase) : SemReach cap s s
  | step {s t u : List TaskPhase} :
      SemReach cap s t → SemStep cap t u → SemReach cap s u

theorem countP_set_add (l : List TaskPhase) (i : Nat) (b a : TaskPhase)
    (h : l.get? i = some b) (p : TaskPhase → Bool) :
    (l.set i a).countP p + (if p b then 1 else 0)
      = l.countP p + (if p a then 1 else 0) := by
  induction l generalizing i with
  | nil => simp at h
  | cons c t ih =>
    cases i with
    | zero =>
      rw [List.get?_cons_zero] at h
      injection h with h
      subst h
      simp only [List.set, List.countP_cons]
      omega
    | succ j =>
      rw [List.get?_cons_succ] at h
      simp only [List.set, List.countP_cons]
      have := ih j h
      omega

theorem in_flight_step_le {cap : Nat} {s t : List TaskPhase}
    (h : SemStep cap s t) (hs : in_flight s ≤ cap) : in_flight t ≤ cap := by
  cases h with
  | acquire i hi hc =>
    have hcount := countP_set_add s i TaskPhase.task_pending
      TaskPhase.task_running hi is_running
    simp [is_running] at hcount
    unfold in_flight at *
    omega
  | release i hi =>
    have hcount := countP_set_add s i TaskPhase.task_running
      TaskPhase.task_done hi is_running
    simp [is_running] at hcount
    unfold in_flight at *
    omega

theorem in_flight_replicate (n : Nat) :
    in_flight (List.replicate n TaskPhase.task_pending) = 0 := by
  induction n with
  | zero => rfl
  | succ k ih =>
    unfold in_flight at *
    simp [List.replicate_succ, List.countP_cons, is_running, ih]

/-- C7: during one pipeline run with any number `n` of scheduled tasks, every
state reachable from the all-pending initial state under the semaphore
scheduler has at most 20 lookups in flight; moreover from a saturated state
(exactly 20 in flight) every possible step strictly reduces the in-flight
count — an additional lookup can only start after a slot is released. -/
theorem c7_semaphore_bounds_in_flight :
    (∀ (n : Nat) (s : List TaskPhase),
      SemReach 20 (List.replicate n TaskPhase.task_pending) s →
      in_flight s ≤ 20)
    ∧ (∀ (s t : List TaskPhase),
        in_flight s = 20 → SemStep 20 s t → in_flight t < 20) := by
  constructor
  · intro n s h
    induction h with
    | refl => rw [in_flight_replicate]; omega
    | step hr hs ih => exact in_flight_step_le hs ih
  · intro s t h20 hstep
    cases hstep with
    | acquire i hi hc => omega
    | release i hi =>
      have hcount := countP_set_add s i TaskPhase.task_running
        TaskPhase.task_done hi is_running
      simp [is_running] at hcount
      unfold in_flight at *
      omega

/-- C7 witness: one acquire step from a single-task run stays within the
bound, and a release step from a saturated 20-task state goes below it. -/
theorem c7_semaphore_bounds_in_flight_witness :
    in_flight ((List.replicate 1 TaskPhase.task_pending).set 0
        TaskPhase.task_running) ≤ 20
    ∧ in_flight ((List.replicate 20 TaskPhase.task_running).set 0
        TaskPhase.task_done) < 20 :=
  ⟨c7_semaphore_bounds_in_flight.1 1 _
      (SemReach.step (SemReach.refl _) (SemStep.acquire _ 0 rfl (by decide))),
   c7_semaphore_bounds_in_flight.2 (List.replicate 20 TaskPhase.task_running) _
      (by decide) (SemStep.release _ 0 rfl)⟩

/-! ### Helper lemmas about the gather/reassemble pipeline -/

theorem gatherE_ok_forall2 {α : Type} :
    ∀ (tasks : List (Except Unit α)) (r : List α),
      gatherE tasks = Except.ok r →
      List.Forall₂ (fun t v => t = Except.ok v) tasks r := by
  intro tasks
  induction tasks with
  | nil =>
    intro r h
    simp only [gatherE] at h
    injection h with h
    subst h
    exact List.Forall₂.nil
  | cons t ts ih =>
    intro r h
    cases t with
    | error e =>
      simp only [gatherE] at h
      cases h
    | ok v =>
      cases hg : gatherE ts with
      | error e =>
        simp only [gatherE, hg] at h
        cases h
      | ok vs =>
        simp only [gatherE, hg] at h
        injection h with h
        subst h
        exact List.Forall₂.cons rfl (ih vs hg)

theorem process_one_ok_fst (apiKey : Option String)
    (provider : String → String → ProviderOutcome) (idx : Nat) (row : Row)
    (r : Nat × Option ℚ) (h : process_one apiKey provider idx row = Except.ok r) :
    r.1 = idx := by
  simp only [process_one] at h
  split at h
  · injection h with h
    subst h
    rfl
  · split at h
    · split at h
      · injection h with h
        subst h
        rfl
      · cases h
    · injection h with h
      subst h
      rfl

theorem foldl_set_length :
    ∀ (l : List (Nat × Option ℚ)) (acc : List (Option ℚ)),
      (l.foldl (fun a p => a.set p.1 p.2) acc).length = acc.length := by
  intro l
  induction l with
  | nil => intro acc; rfl
  | cons p t ih =>
    intro acc
    rw [List.foldl_cons, ih, List.length_set]

theorem foldl_set_getElem_not_mem :
    ∀ (l : List (Nat × Option ℚ)) (acc : List (Option ℚ)) (i : Nat),
      i ∉ l.map Prod.fst →
      (l.foldl (fun a p => a.set p.1 p.2) acc)[i]? = acc[i]? := by
  intro l
  induction l with
  | nil => intro acc i _; rfl
  | cons p t ih =>
    intro acc i h
    simp only [List.map_cons, List.mem_cons] at h
    push_neg at h
    rw [List.foldl_cons, ih _ i h.2, List.getElem?_set_ne (Ne.symm h.1)]

theorem foldl_set_getElem_mem :
    ∀ (l : List (Nat × Option ℚ)) (acc : List (Option ℚ)) (i : Nat) (v : Option ℚ),
      (i, v) ∈ l → (l.map Prod.fst).Nodup → i < acc.length →
      (l.foldl (fun a p => a.set p.1 p.2) acc)[i]? = some v := by
  intro l
  induction l with
  | nil =>
    intro acc i v hmem _ _
    cases hmem
  | cons p t ih =>
    intro acc i v hmem hnd hi
    simp only [List.map_cons, List.nodup_cons] at hnd
    rcases List.mem_cons.mp hmem with heq | hmem'
    · subst heq
      rw [List.foldl_cons, foldl_set_getElem_not_mem t _ i hnd.1]
      exact List.getElem?_set_eq_of_lt v hi
    · rw [List.foldl_cons]
      exact ih _ i v hmem' hnd.2 (by rw [List.length_set]; exact hi)

theorem reassemble_length (n : Nat) (results : List (Nat × Option ℚ)) :
    (reassemble n results).length = n := by
  unfold reassemble
  rw [foldl_set_length, List.length_replicate]

theorem reassemble_getElem_mem (n : Nat) (results : List (Nat × Option ℚ))
    (i : Nat) (v : Option ℚ) (hmem : (i, v) ∈ results)
    (hnd : (results.map Prod.fst).Nodup) (hi : i < n) :
    (reassemble n results)[i]? = some v := by
  unfold reassemble
  exact foldl_set_getElem_mem results _ i v hmem hnd
    (by rw [List.length_replicate]; exact hi)

theorem reassemble_getElem_not_mem (n : Nat) (results : List (Nat × Option ℚ))
    (i : Nat) (h : i ∉ results.map Prod.fst) (hi : i < n) :
    (reassemble n results)[i]? = some none := by
  unfold reassemble
  rw [foldl_set_getElem_not_mem _ _ _ h]
  simp [List.getElem?_replicate, hi]

/-- Reassembly by index tags is invariant under permutations of the tagged
result list: completion order does not matter. -/
theorem reassemble_perm (n : Nat) (res res' : List (Nat × Option ℚ))
    (hperm : res'.Perm res) (hnd : (res.map Prod.fst).Nodup) :
    reassemble n res' = reassemble n res := by
  have hnd' : (res'.map Prod.fst).Nodup := ((hperm.map Prod.fst).nodup_iff).mpr hnd
  apply List.ext_getElem?
  intro i
  by_cases hi : i < n
  · by_cases hm : i ∈ res.map Prod.fst
    · obtain ⟨p, hpmem, hp⟩ := List.mem_map.mp hm
      obtain ⟨i', v⟩ := p
      have hii : i' = i := hp
      subst hii
      rw [reassemble_getElem_mem n res i' v hpmem hnd hi,
          reassemble_getElem_mem n res' i' v (hperm.mem_iff.mpr hpmem) hnd' hi]
    · have hm' : i ∉ res'.map Prod.fst :=
        fun hx => hm (((hperm.map Prod.fst).mem_iff).mp hx)
      rw [reassemble_getElem_not_mem n res i hm hi,
          reassemble_getElem_not_mem n res' i hm' hi]
  · rw [List.getElem?_eq_none (by rw [reassemble_length]; omega),
        List.getElem?_eq_none (by rw [reassemble_length]; omega)]

/-- What a successful gather stage yields: one `(idx, miles)` pair per row,
in row order, whose tags are exactly `0, …, n-1`. -/
theorem tagged_results_spec (apiKey : Option String)
    (provider : String → String → ProviderOutcome) (rows : List Row)
    (res : List (Nat × Option ℚ))
    (hg : tagged_results apiKey provider rows = Except.ok res) :
    res.length = rows.length
    ∧ (∀ i (hi : i < rows.length),
        ∃ m, res[i]? = some (i, m)
          ∧ process_one apiKey provider i rows[i] = Except.ok (i, m))
    ∧ res.map Prod.fst = List.range rows.length := by
  have hf := gatherE_ok_forall2 _ _ hg
  obtain ⟨hl, hp⟩ := List.forall₂_iff_get.mp hf
  simp only [List.length_map, List.enum_length] at hl
  have hlen : res.length = rows.length := hl.symm
  have hpt : ∀ i (hi : i < rows.length),
      ∃ m, res[i]? = some (i, m)
        ∧ process_one apiKey provider i rows[i] = Except.ok (i, m) := by
    intro i hi
    have h1 : i < (rows.enum.map
        (fun p => process_one apiKey provider p.1 p.2)).length := by
      simp [List.enum_length, hi]
    have h2 : i < res.length := by omega
    have hpo := hp i h1 h2
    simp only [List.get_eq_getElem, List.getElem_map, List.getElem_enum] at hpo
    have hfst := process_one_ok_fst apiKey provider i rows[i] _ hpo
    have hpair : res[i] = (i, res[i].2) := Prod.ext_iff.mpr ⟨hfst, rfl⟩
    refine ⟨res[i].2, ?_, ?_⟩
    · rw [List.getElem?_eq_getElem h2]
      exact congrArg some hpair
    · rw [hpo]
      exact congrArg Except.ok hpair
  refine ⟨hlen, hpt, ?_⟩
  apply List.ext_getElem
  · simp [hlen]
  · intro i h1 h2
    have hri : i < res.length := by rw [List.length_map] at h1; exact h1
    have hirow : i < rows.length := by rw [List.length_range] at h2; exact h2
    simp only [List.getElem_map]
    obtain ⟨m, hres, -⟩ := hpt i hirow
    rw [List.getElem?_eq_getElem hri] at hres
    injection hres with hres
    rw [hres]
    simp [List.getElem_range]

/-! ### Claim theorems: the enrichment pipeline -/

/-- C1: when the enrichment pipeline completes, the output has exactly the
length of the input, the value at position `i` is the miles-or-absent value
`process_one` computes for input row `i` (each row contributing exactly one
tagged result), and the reassembled output is the same for every completion
order (permutation) of the tagged results. -/
theorem c1_output_matches_input_order (apiKey : Option String)
    (provider : String → String → ProviderOutcome) (rows : List Row)
    (out : List (Option ℚ))
    (h : calculate_mileage apiKey provider rows = Except.ok out) :
    out.length = rows.length
    ∧ (∀ i (hi : i < rows.length),
        ∃ m, process_one apiKey provider i rows[i] = Except.ok (i, m)
          ∧ out[i]? = some m)
    ∧ (∀ res res', tagged_results apiKey provider rows = Except.ok res →
        res'.Perm res → reassemble rows.length res' = out) := by
  cases hg : tagged_results apiKey provider rows with
  | error e =>
    simp only [calculate_mileage, hg] at h
    cases h
  | ok res =>
    simp only [calculate_mileage, hg] at h
    injection h with h
    subst h
    obtain ⟨hlen, hpt, hfst⟩ := tagged_results_spec apiKey provider rows res hg
    have hnd : (res.map Prod.fst).Nodup := by
      rw [hfst]; exact List.nodup_range _
    refine ⟨reassemble_length _ _, ?_, ?_⟩
    · intro i hi
      obtain ⟨m, hres, hpo⟩ := hpt i hi
      refine ⟨m, hpo, ?_⟩
      have hmem : (i, m) ∈ res := by
        have h2 : i < res.length := by omega
        rw [List.getElem?_eq_getElem h2] at hres
        injection hres with hres
        rw [← hres]
        exact List.getElem_mem h2
      exact reassemble_getElem_mem rows.length res i m hmem hnd hi
    · intro res0 res' hg0 hperm
      have hres : res0 = res := (Except.ok.inj hg0).symm
      subst hres
      exact reassemble_perm rows.length res0 res' hperm hnd

/-- C1 witness: a two-row run (a rule-3 row whose lookup finds no route, and
a rule-4 row) completes with output `[none, none]`; position 0 carries
exactly row 0's computed value. -/
theorem c1_output_matches_input_order_witness :
    ∃ m, process_one (some "k") (fun _ _ => ProviderOutcome.response 200 []) 0
        { mexico_origin_city_state := PyVal.vStr "JUAREZ,NL"
          mexico_dest_city_state := PyVal.vStr "CHIHUAHUA,CH"
          origin_city := PyVal.vNone
          origin_state := PyVal.vNone
          origin_zip := PyVal.vNone
          dest_city := PyVal.vNone
          dest_state := PyVal.vNone
          dest_zip := PyVal.vNone }
        = Except.ok (0, m)
      ∧ ([none, none] : List (Option ℚ))[0]? = some m :=
  (c1_output_matches_input_order (some "k")
      (fun _ _ => ProviderOutcome.response 200 [])
      [{ mexico_origin_city_state := PyVal.vStr "JUAREZ,NL"
         mexico_dest_city_state := PyVal.vStr "CHIHUAHUA,CH"
         origin_city := PyVal.vNone
         origin_state := PyVal.vNone
         origin_zip := PyVal.vNone
         dest_city := PyVal.vNone
         dest_state := PyVal.vNone
         dest_zip := PyVal.vNone },
       { mexico_origin_city_state := PyVal.vNone
         mexico_dest_city_state := PyVal.vNone
         origin_city := PyVal.vNone
         origin_state := PyVal.vNone
         origin_zip := PyVal.vNone
         dest_city := PyVal.vNone
         dest_state := PyVal.vNone
         dest_zip := PyVal.vNone }]
      [none, none] rfl).2.1 0 (by decide)

/-- C8: the pipeline is deterministic — two runs over the same input with the
same deterministic provider behaviour are literally the same value, and the
reassembled output does not depend on the order in which tagged results
complete (any two completion orders agree). -/
theorem c8_pipeline_deterministic (apiKey : Option String)
    (provider : String → String → ProviderOutcome) (rows : List Row) :
    calculate_mileage apiKey provider rows
      = calculate_mileage apiKey provider rows
    ∧ (∀ res res1 res2, tagged_results apiKey provider rows = Except.ok res →
        res1.Perm res → res2.Perm res →
        reassemble rows.length res1 = reassemble rows.length res2) := by
  refine ⟨rfl, ?_⟩
  intro res res1 res2 hg h1 h2
  obtain ⟨-, -, hfst⟩ := tagged_results_spec apiKey provider rows res hg
  have hnd : (res.map Prod.fst).Nodup := by
    rw [hfst]; exact List.nodup_range _
  rw [reassemble_perm rows.length res res1 h1 hnd,
      reassemble_perm rows.length res res2 h2 hnd]

/-- C8 witness: on a concrete two-row run, the two completion orders of the
tagged results reassemble to the same output. -/
theorem c8_pipeline_deterministic_witness :
    reassemble 2 [(1, (none : Option ℚ)), (0, none)]
      = reassemble 2 [(0, (none : Option ℚ)), (1, none)] :=
  (c8_pipeline_deterministic (some "k")
      (fun _ _ => ProviderOutcome.response 200 [])
      [{ mexico_origin_city_state := PyVal.vStr "JUAREZ,NL"
         mexico_dest_city_state := PyVal.vStr "CHIHUAHUA,CH"
         origin_city := PyVal.vNone
         origin_state := PyVal.vNone
         origin_zip := PyVal.vNone
         dest_city := PyVal.vNone
         dest_state := PyVal.vNone
         dest_zip := PyVal.vNone },
       { mexico_origin_city_state := PyVal.vNone
         mexico_dest_city_state := PyVal.vNone
         origin_city := PyVal.vNone
         origin_state := PyVal.vNone
         origin_zip := PyVal.vNone
         dest_city := PyVal.vNone
         dest_state := PyVal.vNone
         dest_zip := PyVal.vNone }]).2
    [(0, none), (1, none)] [(1, none), (0, none)] [(0, none), (1, none)]
    rfl (List.Perm.swap (0, none) (1, none) []) (List.Perm.refl _)
